import Mathlib

/-!
Verification of the diagnostic classification and streaming filter engine of
`mypyrun.py` (RSabet/mypy-runner), as a shallow embedding in Lean 4.

Modelling conventions:
- Python frozensets of code strings are modelled as `List String`; Python
  truthiness of such a set is emptiness (`≠ []`).
- Compiled regular expressions are kept as their source strings; regex
  searching (`regex.search(text)`) is abstracted as an oracle
  `search : String → String → Bool` taking the pattern source and the text.
  Structural theorems quantify over the oracle.  Concrete inputs are
  evaluated with `strSearch`, a literal-substring matcher that agrees with
  Python's `re.search` on every pattern/message pair used below (the decisive
  patterns there are metacharacter-free, and the messages contain no
  occurrence of any other pattern, literal or regex-matched).
- I/O (printing a report line, the pass-through print, and the severe-error
  banner) is captured as a trace of `OutEvent`s in the order the source
  prints them.
-/

namespace MypyRun

/-- The `Options` class of the source (`mypyrun.py`, lines 96-110): policy
sets `select` / `ignore` / `warn`, path-exclusion pattern sources `exclude`,
search `paths`, and the presentation flags.  Defaults mirror the class
attributes. -/
structure Options where
  select : List String
  ignore : List String
  warn : List String
  exclude : List String
  paths : List String
  color : Bool
  show_ignored : Bool
  show_error_keys : Bool
deriving DecidableEq

/-- Class-attribute defaults of `Options` in the source: empty sets,
`color = True`, both show flags `False`. -/
def defaultOptions : Options :=
  ⟨[], [], [], [], [], true, false, false⟩

/-- The `_FILTERS` classification table of the source (lines 28-82), in
source order: pairs of (error code, regex pattern source).  Adjacent Python
string literals are concatenated exactly as Python does. -/
def FILTERS : List (String × String) :=
  [ ("invalid_syntax", "syntax error in type comment"),
    ("wrong_number_of_args", "Type signature has "),
    ("misplaced_annotation", "misplaced type annotation"),
    ("not_defined", " is not defined"),
    ("invalid_type_arguments", "(\".*\" expects .* type argument)(Optional.* must have exactly one type argument)(is not subscriptable)"),
    ("generator_expected", "The return type of a generator function should be "),
    ("orphaned_overload", "Overloaded .* will never be matched"),
    ("already_defined", "already defined"),
    ("return_expected", "Return value expected"),
    ("return_not_expected", "No return value expected"),
    ("incompatible_return", "Incompatible return value type"),
    ("incompatible_yield", "Incompatible types in \"yield\""),
    ("incompatible_arg", "Argument .* has incompatible type"),
    ("incompatible_default_arg", "Incompatible default for argument"),
    ("incompatible_subclass_signature", "Signature .* incompatible with supertype"),
    ("incompatible_subclass_return", "Return type .* incompatible with supertype"),
    ("incompatible_subclass_arg", "Argument .* incompatible with supertype"),
    ("incompatible_subclass_attr", "Incompatible types in assignment \\(expression has type \".*\", base class \".*\" defined the type as \".*\"\\)"),
    ("need_annotation", "Need type annotation"),
    ("missing_module", "Cannot find module "),
    ("no_attr_none_case", "Item \"None\" of \".*\" has no attribute"),
    ("incompatible_subclass_attr_none_case", "Incompatible types in assignment \\(expression has type \".*\", base class \".*\" defined the type as \"None\"\\)"),
    ("incompatible_list_comprehension", "List comprehension has incompatible type"),
    ("cannot_assign_to_method", "Cannot assign to a method"),
    ("not_enough_arguments", "Too few arguments"),
    ("not_callable", " not callable"),
    ("no_attr", ".* has no attribute"),
    ("not_indexable", " not indexable"),
    ("invalid_index", "Invalid index type"),
    ("not_iterable", " not iterable"),
    ("not_assignable_by_index", "Unsupported target for indexed assignment"),
    ("no_matching_overload", "No overload variant of .* matches argument type"),
    ("incompatible_assignment", "Incompatible types in assignment"),
    ("invalid_return_assignment", "does not return a value"),
    ("unsupported_operand", "Unsupported .*operand "),
    ("abc_with_abstract_attr", "Cannot instantiate abstract class .* with abstract attribute") ]

/-- `FILTERS_SET` of the source (line 85): the vocabulary of known codes. -/
def FILTERS_SET : List String := FILTERS.map Prod.fst

/-- The scanning loop of `get_error_code` (lines 126-129), over an explicit
rule list: first rule whose pattern matches the message wins. -/
def findErrorCode (search : String → String → Bool) (msg : String) :
    List (String × String) → Option String
  | [] => none
  | (code, pat) :: rest =>
      if search pat msg then some code else findErrorCode search msg rest

/-- `get_error_code` of the source (lines 113-129): look up the error
constant for a message by scanning `FILTERS` in order. -/
def get_error_code (search : String → String → Bool) (msg : String) :
    Option String :=
  findErrorCode search msg FILTERS

/-- `is_excluded_path` of the source (lines 132-136): whether any exclusion
pattern matches the path. -/
def is_excluded_path (search : String → String → Bool) (path : String)
    (options : Options) : Bool :=
  options.exclude.any fun r => search r path

/-- `get_status` of the source (lines 139-168).  Python truthiness of the
frozensets is non-emptiness; a fall-through inner `if` without `else` merges
into the next condition.  Returns `some "error"`, `some "warning"`, or
`none` (suppressed). -/
def get_status (options : Options) (error_code : String) : Option String :=
  if options.select ≠ [] ∧ error_code ∈ options.select then some "error"
  else if options.warn ≠ [] ∧ error_code ∈ options.warn then some "warning"
  else if options.ignore ≠ [] ∧ error_code ∈ options.ignore then none
  else if options.ignore ≠ [] ∨ options.select = [] then some "error"
  else none

/-- Whether `pat` occurs at the start of `s`, character by character. -/
def charsLead : List Char → List Char → Bool
  | [], _ => true
  | _ :: _, [] => false
  | a :: as, b :: bs => a == b && charsLead as bs

/-- Whether `pat` occurs anywhere inside `s` as a contiguous run. -/
def charsContain (pat : List Char) : List Char → Bool
  | [] => charsLead pat []
  | c :: rest => charsLead pat (c :: rest) || charsContain pat rest

/-- Literal-substring matcher used to instantiate the regex oracle on
concrete inputs: `strSearch pat msg` holds iff `pat` occurs verbatim in
`msg`.  It agrees with Python's `re.search` on every pattern/message pair
appearing in the concrete theorems below. -/
def strSearch (pat msg : String) : Bool :=
  charsContain pat.toList msg.toList

/-- Splitting a character list on every occurrence of a separator, Python
`str.split(sep)` style for a one-character separator: always at least one
(possibly empty) chunk. -/
def splitOnChar (sep : Char) : List Char → List (List Char)
  | [] => [[]]
  | c :: rest =>
      let r := splitOnChar sep rest
      if c == sep then [] :: r
      else
        match r with
        | h :: t => (c :: h) :: t
        | [] => [[c]]

/-- Python `str.split(":")`. -/
def splitColons (l : List Char) : List (List Char) := splitOnChar ':' l

/-- Rejoining chunks with colons, inverse of `splitColons`. -/
def joinColons : List (List Char) → List Char
  | [] => []
  | [x] => x
  | x :: y :: t => x ++ ':' :: joinColons (y :: t)

/-- Python `line.split(":", maxsplit)`: split on every colon, then rejoin
everything past the first `maxsplit` pieces. -/
def pySplitColon (s : String) (maxsplit : Nat) : List String :=
  let parts := splitColons s.toList
  if parts.length ≤ maxsplit + 1 then parts.map String.mk
  else (parts.take maxsplit).map String.mk ++
    [String.mk (joinColons (parts.drop maxsplit))]

/-- Dropping leading whitespace from a character list. -/
def dropLeadWs : List Char → List Char
  | [] => []
  | c :: rest => if c.isWhitespace then dropLeadWs rest else c :: rest

/-- Python `str.strip()`: remove leading and trailing whitespace. -/
def pyStrip (s : String) : String :=
  String.mk (dropLeadWs (dropLeadWs s.toList).reverse).reverse

/-- The two tuple-unpacking attempts of `run` (lines 254-262):
`filename, lineno, status, msg = line.split(":", 3)`, falling back to
`lineno = ""` and `filename, status, msg = line.split(":", 2)`; `none`
means both unpackings raise and the raw line is passed through. -/
def parseLine (line : String) : Option (String × String × String × String) :=
  match pySplitColon line 3 with
  | [filename, lineno, status, msg] => some (filename, lineno, status, msg)
  | _ =>
    match pySplitColon line 2 with
    | [filename, status, msg] => some (filename, "", status, msg)
    | _ => none

/-- One observable output of the streaming loop: a call to `report`
captured with its arguments `(filename, lineno, status, msg, is_filtered,
error_key)`, a verbatim pass-through print of an unparseable line, or the
severe-error banner. -/
inductive OutEvent where
  | report (filename lineno status msg : String)
      (is_filtered : Bool) (error_key : Option String)
  | raw (line : String)
  | banner
deriving DecidableEq

/-- The loop-carried state of `run`: `matched_error` (resolved status and
code of the most recently reported diagnostic, used for note association),
the running `errors` counter, and `last_error`, the last parsed tuple
`(filename, lineno, stripped msg, error_code)`.  The `options` component of
Python's `last_error` tuple is omitted: it is the single immutable snapshot
passed to `run`. -/
structure RunState where
  matched_error : Option (Option String × String)
  errors : Nat
  last_error : Option (String × String × String × Option String)
deriving DecidableEq

/-- State at loop entry: `matched_error = None`, `errors = 0`,
`last_error = None`. -/
def initState : RunState := ⟨none, 0, none⟩

/-- The `elif status == "note" and matched_error is not None` arm of the
loop (lines 283-285) together with the implicit do-nothing fall-through.
`matched_error[0]` is `None` or a non-empty status string, so Python's
`not matched_error[0]` is `Option.isNone`. -/
def noteStep (st1 : RunState) (filename lineno status msg : String) :
    RunState × List OutEvent :=
  if status = "note" then
    match st1.matched_error with
    | some me =>
        (st1, [OutEvent.report filename lineno status msg me.1.isNone (some me.2)])
    | none => (st1, [])
  else (st1, [])

/-- One iteration of the streaming loop of `run` (lines 252-285), returning
the successor state and the output events the iteration prints.  Codes and
resolved statuses are non-empty strings, so Python truthiness of
`error_code` and `new_status` is `Option.isSome`. -/
def processLine (search : String → String → Bool) (options : Options)
    (st : RunState) (line : String) : RunState × List OutEvent :=
  match parseLine line with
  | none => (st, [OutEvent.raw line])
  | some (filename, lineno, status0, msg0) =>
    if is_excluded_path search filename options then (st, [])
    else
      let error_code := get_error_code search msg0
      let status := pyStrip status0
      let msg := pyStrip msg0
      let st1 : RunState :=
        { st with last_error := some (filename, lineno, msg, error_code) }
      match error_code with
      | some code =>
          if status = "error" then
            let new_status := get_status options code
            let errors1 :=
              if new_status = some "error" then st1.errors + 1 else st1.errors
            if options.show_ignored || new_status.isSome then
              ({ st1 with errors := errors1,
                          matched_error := some (new_status, code) },
               [OutEvent.report filename lineno (new_status.getD "error") msg
                  new_status.isNone (some code)])
            else
              ({ st1 with errors := errors1, matched_error := none }, [])
          else
            noteStep st1 filename lineno status msg
      | none => noteStep st1 filename lineno status msg

/-- The whole streaming loop over a list of raw lines. -/
def processLines (search : String → String → Bool) (options : Options) :
    RunState → List String → RunState × List OutEvent
  | st, [] => (st, [])
  | st, line :: rest =>
      let r1 := processLine search options st line
      let r2 := processLines search options r1.1 rest
      (r2.1, r1.2 ++ r2.2)

/-- `run` of the source (lines 212-296) after the subprocess produced
`lines` and exited with `returncode`: the post-loop severe-error handling
(lines 288-295) and the final `return returncode if errors else 0`.
Result: (exit code, printed events). -/
def runModel (search : String → String → Bool) (options : Options)
    (lines : List String) (returncode : Int) : Int × List OutEvent :=
  let res := processLines search options initState lines
  let st := res.1
  let out := res.2
  let out2 :=
    if returncode ≠ 1 then
      out ++ [OutEvent.banner] ++
        (match st.last_error with
         | some (filename, lineno, msg, _ec) =>
             [OutEvent.report filename lineno "error" msg false none]
         | none => [])
    else out
  (if st.errors ≠ 0 then returncode else 0, out2)

/-- Does a line increment the `errors` counter?  Mirrors the guard
structure of `processLine`: parseable, not excluded, recognized code,
stripped status exactly `error`, and `get_status` resolving to error. -/
def countsAsError (search : String → String → Bool) (options : Options)
    (line : String) : Bool :=
  match parseLine line with
  | none => false
  | some (filename, _lineno, status0, msg0) =>
    if is_excluded_path search filename options then false
    else
      match get_error_code search msg0 with
      | some code =>
          pyStrip status0 == "error" && (get_status options code == some "error")
      | none => false

/-- C1: Status Policy precedence.  For every Options snapshot and code:
select membership yields error first; then warn membership yields warning;
then ignore membership yields suppressed; in particular, under the
documented Options invariant that select and ignore are disjoint, a code in
both warn and ignore resolves to warning (warn wins over ignore). -/
theorem get_status_precedence (o : Options) (c : String)
    (hdisj : ∀ x, x ∈ o.select → x ∉ o.ignore) :
    (c ∈ o.select → get_status o c = some "error") ∧
    (c ∉ o.select → c ∈ o.warn → get_status o c = some "warning") ∧
    (c ∉ o.select → c ∉ o.warn → c ∈ o.ignore → get_status o c = none) ∧
    (c ∈ o.warn → c ∈ o.ignore → get_status o c = some "warning") := by
  refine ⟨?_, ?_, ?_, ?_⟩
  · intro hc
    have hne : o.select ≠ [] := List.ne_nil_of_mem hc
    simp [get_status, hne, hc]
  · intro hc hw
    have hne : o.warn ≠ [] := List.ne_nil_of_mem hw
    simp [get_status, hc, hne, hw]
  · intro hc hw hi
    have hne : o.ignore ≠ [] := List.ne_nil_of_mem hi
    simp [get_status, hc, hw, hne, hi]
  · intro hw hi
    have hc : c ∉ o.select := fun hc => hdisj c hc hi
    have hne : o.warn ≠ [] := List.ne_nil_of_mem hw
    simp [get_status, hc, hne, hw]

/-- Witness for C1 at concrete snapshots: one instance per branch of the
precedence, the last one a code present in both warn and ignore. -/
theorem get_status_precedence_witness :
    get_status ⟨["a"], [], [], [], [], true, false, false⟩ "a" = some "error" ∧
    get_status ⟨[], [], ["w"], [], [], true, false, false⟩ "w" = some "warning" ∧
    get_status ⟨[], ["i"], [], [], [], true, false, false⟩ "i" = none ∧
    get_status ⟨[], ["w"], ["w"], [], [], true, false, false⟩ "w" = some "warning" := by
  refine ⟨?_, ?_, ?_, ?_⟩
  · exact (get_status_precedence _ "a" (by simp)).1 (by simp)
  · exact (get_status_precedence _ "w" (by simp)).2.1 (by simp) (by simp)
  · exact (get_status_precedence _ "i" (by simp)).2.2.1 (by simp) (by simp) (by simp)
  · exact (get_status_precedence _ "w" (by simp)).2.2.2 (by simp) (by simp)

/-- C2 counterexample: with non-empty select `["a"]`, non-empty ignore
`["b"]` and empty warn, the code `"c"` lies in none of the three sets, yet
`get_status` returns `some "error"` (the fourth branch fires because ignore
is non-empty), not suppressed as the claim states. -/
theorem get_status_c2_counterexample :
    (let o : Options := ⟨["a"], ["b"], [], [], [], true, false, false⟩
     o.select ≠ [] ∧ "c" ∉ o.select ∧ "c" ∉ o.ignore ∧ "c" ∉ o.warn ∧
       get_status o "c" = some "error") := by
  decide

/-- C2 amended: with non-empty select and a code in none of the three sets,
`get_status` is suppressed exactly when ignore is also empty; when ignore is
non-empty the default-allow branch fires and the result is error. -/
theorem get_status_outside_sets (o : Options) (c : String)
    (hsel : o.select ≠ []) (hs : c ∉ o.select) (hw : c ∉ o.warn)
    (hi : c ∉ o.ignore) :
    get_status o c = (if o.ignore ≠ [] then some "error" else none) := by
  simp [get_status, hsel, hs, hw, hi]

/-- Witness for the amended C2 at a concrete snapshot with empty ignore:
the result is suppressed. -/
theorem get_status_outside_sets_witness :
    get_status ⟨["a"], [], [], [], [], true, false, false⟩ "c" = none := by
  have h := get_status_outside_sets ⟨["a"], [], [], [], [], true, false, false⟩
    "c" (by simp) (by simp) (by simp) (by simp)
  simpa using h


/-- The first component returned by `noteStep` is always the state it was
given: the note arm never touches `matched_error` or `errors`. -/
theorem noteStep_fst (st1 : RunState) (f l s m : String) :
    (noteStep st1 f l s m).1 = st1 := by
  unfold noteStep
  split
  · cases h : st1.matched_error <;> simp [h]
  · rfl

/-- One loop iteration bumps the error counter exactly on lines satisfying
`countsAsError`, independently of the incoming state. -/
theorem processLine_errors (search : String → String → Bool) (o : Options)
    (st : RunState) (line : String) :
    ((processLine search o st line).1).errors =
      st.errors + (if countsAsError search o line then 1 else 0) := by
  unfold processLine countsAsError
  cases hp : parseLine line with
  | none => simp
  | some quad =>
    obtain ⟨f, l, s0, m0⟩ := quad
    by_cases hex : is_excluded_path search f o
    · simp [hex]
    · simp only [hex, Bool.false_eq_true, if_false]
      cases hc : get_error_code search m0 with
      | none => simp [noteStep_fst]
      | some code =>
        by_cases hs : pyStrip s0 = "error"
        · by_cases hres : get_status o code = some "error"
          · simp [hs, hres]
          · have hres2 : (get_status o code == some "error") = false := by
              simpa using hres
            simp [hs, hres, hres2]
            split <;> simp
        · simp [hs, noteStep_fst]

/-- The whole loop: the final error counter is the count of lines
satisfying `countsAsError`, on top of whatever the counter held at entry. -/
theorem processLines_errors (search : String → String → Bool) (o : Options)
    (lines : List String) :
    ∀ st : RunState, ((processLines search o st lines).1).errors =
      st.errors + lines.countP (countsAsError search o) := by
  induction lines with
  | nil => intro st; simp [processLines]
  | cons line rest ih =>
    intro st
    simp only [processLines]
    rw [ih, processLine_errors, List.countP_cons]
    omega

/-- C9: the running error counter is incremented exactly by the parseable,
non-excluded lines whose recognized code and stripped status `error`
resolve to error under `get_status`; notes, warnings, suppressed, excluded
and pass-through lines never change it, so the counter after the loop is a
pure count over the input lines. -/
theorem run_error_counter (search : String → String → Bool) (o : Options)
    (lines : List String) (st : RunState) :
    ((processLines search o st lines).1).errors =
      st.errors + lines.countP (countsAsError search o) :=
  processLines_errors search o lines st

/-- C8: when the subprocess exits with code 1, `run` returns 1 if the
running error counter is non-zero and 0 otherwise; a run whose diagnostics
were all suppressed returns 0. -/
theorem run_exit_code_one (search : String → String → Bool) (o : Options)
    (lines : List String) :
    (runModel search o lines 1).1 =
      (if lines.countP (countsAsError search o) ≠ 0 then 1 else 0) := by
  have h := processLines_errors search o lines initState
  rw [show initState.errors = 0 from rfl, Nat.zero_add] at h
  show (if (processLines search o initState lines).1.errors ≠ 0 then (1 : Int) else 0) = _
  rw [h]

/-- C3 counterexample: one diagnostic, suppressed via `ignore`, and the
subprocess exits abnormally with code 2.  The banner is printed and the
last diagnostic re-reported, but `run` returns 0, not the raw exit code 2:
the final `return returncode if errors else 0` also remaps abnormal exit
codes when the error counter is zero. -/
theorem run_abnormal_exit_counterexample :
    runModel strSearch ⟨[], ["need_annotation"], [], [], [], true, false, false⟩
        ["a.py:1:error: Need type annotation for x"] 2 =
      (0, [OutEvent.banner,
           OutEvent.report "a.py" "1" "error" "Need type annotation for x" false none]) := by
  decide

/-- C3 amended: on abnormal termination (exit code other than 1) the banner
is printed and the last-seen diagnostic tuple is re-reported unconditionally
with severity `error` and no suppression; the engine exit code, however, is
the raw subprocess code only if the running error counter is non-zero, and
0 otherwise. -/
theorem run_abnormal_behaviour (search : String → String → Bool) (o : Options)
    (lines : List String) (rc : Int) (h : rc ≠ 1) :
    OutEvent.banner ∈ (runModel search o lines rc).2 ∧
    (∀ f l m ec,
      ((processLines search o initState lines).1).last_error = some (f, l, m, ec) →
        OutEvent.report f l "error" m false none ∈ (runModel search o lines rc).2) ∧
    (runModel search o lines rc).1 =
      (if ((processLines search o initState lines).1).errors ≠ 0 then rc else 0) := by
  refine ⟨?_, ?_, rfl⟩
  · simp [runModel, h]
  · intro f l m ec hle
    simp [runModel, h, hle]

/-- Witness for the amended C3: a surfaced error and exit code 2 — the
banner and forced re-report appear and the raw code is propagated because
the counter is non-zero. -/
theorem run_abnormal_behaviour_witness :
    OutEvent.banner ∈
      (runModel strSearch defaultOptions ["a.py:1:error: Need type annotation for x"] 2).2 ∧
    OutEvent.report "a.py" "1" "error" "Need type annotation for x" false none ∈
      (runModel strSearch defaultOptions ["a.py:1:error: Need type annotation for x"] 2).2 ∧
    (runModel strSearch defaultOptions ["a.py:1:error: Need type annotation for x"] 2).1 = 2 := by
  obtain ⟨h1, h2, h3⟩ := run_abnormal_behaviour strSearch defaultOptions
    ["a.py:1:error: Need type annotation for x"] 2 (by decide)
  refine ⟨h1, h2 "a.py" "1" "Need type annotation for x" (some "need_annotation") (by decide), ?_⟩
  rw [h3]
  decide

/-- C5 counterexample: a classified error line, then a parseable error line
whose message matches no rule, then a note.  The unmatched line does not
reset `matched_error`, so the note is emitted with the first line's
classification instead of being dropped. -/
theorem matchstate_not_reset_counterexample :
    runModel strSearch defaultOptions
      ["a.py:1:error: Need type annotation for x",
       "b.py:2:error: Blah",
       "b.py:3:note: some note"] 1 =
      (1, [OutEvent.report "a.py" "1" "error" "Need type annotation for x" false
             (some "need_annotation"),
           OutEvent.report "b.py" "3" "note" "some note" false
             (some "need_annotation")]) := by
  decide

/-- C5 amended: a parseable, non-excluded line whose message matches no
classification rule leaves `MatchState` unchanged (it is not reset to
none); a following note therefore inherits the previous diagnostic, and is
dropped only if `MatchState` was already none. -/
theorem unmatched_code_preserves_matchstate (search : String → String → Bool)
    (o : Options) (st : RunState) (line f l s0 m0 : String)
    (hp : parseLine line = some (f, l, s0, m0))
    (hex : is_excluded_path search f o = false)
    (hc : get_error_code search m0 = none) :
    ((processLine search o st line).1).matched_error = st.matched_error := by
  unfold processLine
  rw [hp]
  simp [hex, hc, noteStep_fst]

/-- Witness for the amended C5 at a concrete active state and the concrete
unmatched line: the match state survives. -/
theorem unmatched_code_preserves_matchstate_witness :
    ((processLine strSearch defaultOptions
        ⟨some (some "error", "need_annotation"), 1, none⟩
        "b.py:2:error: Blah").1).matched_error =
      some (some "error", "need_annotation") :=
  unmatched_code_preserves_matchstate strSearch defaultOptions
    ⟨some (some "error", "need_annotation"), 1, none⟩
    "b.py:2:error: Blah" "b.py" "2" "error" " Blah"
    (by decide) (by decide) (by decide)

/-- C6 counterexample: a diagnostic resolved to `warning`, followed by a
note.  The note is emitted with printed severity `note`, not the recorded
resolved status `warning` of the diagnostic it follows. -/
theorem note_status_counterexample :
    runModel strSearch ⟨[], [], ["need_annotation"], [], [], true, false, false⟩
      ["a.py:1:error: Need type annotation for x", "a.py:2:note: hint"] 1 =
      (0, [OutEvent.report "a.py" "1" "warning" "Need type annotation for x" false
             (some "need_annotation"),
           OutEvent.report "a.py" "2" "note" "hint" false
             (some "need_annotation")]) := by
  decide

/-- C6 amended: a parsed note with an active `MatchState` is emitted with
printed severity `note`, inheriting the preceding diagnostic's code as its
error key and its suppression flag (is_filtered is set exactly when the
parent resolved to suppressed); the note's own message is never classified
into the emitted key; with no active `MatchState` the note is dropped. -/
theorem note_inheritance (search : String → String → Bool) (o : Options)
    (st : RunState) (line f l s0 m0 : String)
    (hp : parseLine line = some (f, l, s0, m0))
    (hex : is_excluded_path search f o = false)
    (hs : pyStrip s0 = "note") :
    processLine search o st line =
      ({ st with last_error := some (f, l, pyStrip m0, get_error_code search m0) },
       match st.matched_error with
       | some me => [OutEvent.report f l "note" (pyStrip m0) me.1.isNone (some me.2)]
       | none => []) := by
  unfold processLine noteStep
  rw [hp]
  simp only [hex, Bool.false_eq_true, if_false, hs]
  cases hc : get_error_code search m0 <;>
    cases hme : st.matched_error <;>
      simp [hme]

/-- Witness for the amended C6: a note after a warning-resolved diagnostic
is emitted as a note carrying the parent's code. -/
theorem note_inheritance_witness :
    processLine strSearch defaultOptions
        ⟨some (some "warning", "need_annotation"), 0, none⟩ "a.py:2:note: hint" =
      (⟨some (some "warning", "need_annotation"), 0, some ("a.py", "2", "hint", none)⟩,
       [OutEvent.report "a.py" "2" "note" "hint" false (some "need_annotation")]) := by
  have h := note_inheritance strSearch defaultOptions
    ⟨some (some "warning", "need_annotation"), 0, none⟩
    "a.py:2:note: hint" "a.py" "2" "note" " hint"
    (by decide) (by decide) (by decide)
  exact h.trans (by decide)

/-- C7 counterexample: a well-shaped line with severity `warning` produces
no output at all — it is consumed silently, not passed through as the
claim states (pass-through happens only for lines that fail to parse). -/
theorem other_severity_counterexample :
    runModel strSearch defaultOptions ["a.py:1:warning: something"] 1 = (0, []) := by
  decide

/-- C7 amended: a parseable, non-excluded line whose stripped severity is
neither `error` nor `note` is silently dropped: no output event, no change
to `matched_error` or the counter, only `last_error` is updated.  Verbatim
pass-through applies only to lines matching neither split shape. -/
theorem other_severity_dropped (search : String → String → Bool) (o : Options)
    (st : RunState) (line f l s0 m0 : String)
    (hp : parseLine line = some (f, l, s0, m0))
    (hex : is_excluded_path search f o = false)
    (he : pyStrip s0 ≠ "error") (hn : pyStrip s0 ≠ "note") :
    processLine search o st line =
      ({ st with last_error := some (f, l, pyStrip m0, get_error_code search m0) }, []) := by
  unfold processLine noteStep
  rw [hp]
  simp only [hex, Bool.false_eq_true, if_false]
  cases hc : get_error_code search m0 <;> simp [he, hn]

/-- Witness for the amended C7 at the concrete warning line. -/
theorem other_severity_dropped_witness :
    processLine strSearch defaultOptions initState "a.py:1:warning: something" =
      (⟨none, 0, some ("a.py", "1", "something", none)⟩, []) := by
  have h := other_severity_dropped strSearch defaultOptions initState
    "a.py:1:warning: something" "a.py" "1" "warning" " something"
    (by decide) (by decide) (by decide) (by decide)
  exact h.trans (by decide)

/-- Any result of the classification scan over a rule list is the code of
one of its rules. -/
theorem findErrorCode_mem (search : String → String → Bool) (msg : String) :
    ∀ (fs : List (String × String)) (c : String),
      findErrorCode search msg fs = some c → c ∈ fs.map Prod.fst := by
  intro fs
  induction fs with
  | nil => intro c h; simp [findErrorCode] at h
  | cons p rest ih =>
    intro c h
    obtain ⟨code, pat⟩ := p
    unfold findErrorCode at h
    by_cases hm : search pat msg
    · simp only [hm, if_true, if_pos rfl, Option.some.injEq] at h
      simp [h]
    · simp only [hm, Bool.false_eq_true, if_false] at h
      simpa using Or.inr (ih c h)

/-- C10: `get_error_code` returns none or a member of the known-code
vocabulary `FILTERS_SET`, for every message and every regex oracle. -/
theorem get_error_code_vocab (search : String → String → Bool) (msg c : String)
    (h : get_error_code search msg = some c) : c ∈ FILTERS_SET :=
  findErrorCode_mem search msg FILTERS c h

/-- Witness for C10: a concrete classified message lands in the
vocabulary. -/
theorem get_error_code_vocab_witness :
    get_error_code strSearch "Need type annotation for x" = some "need_annotation" ∧
    "need_annotation" ∈ FILTERS_SET :=
  ⟨by decide,
   get_error_code_vocab strSearch "Need type annotation for x" "need_annotation" (by decide)⟩

/-- `GLOBAL_ONLY_OPTIONS` of the source (line 93). -/
def GLOBAL_ONLY_OPTIONS : List String := ["color", "show_ignored", "show_error_keys"]

/-- The attribute names the `Options` class body defines (lines 96-110).
There is no `PER_MODULE_OPTIONS` among them, and nothing in the module ever
assigns that name on the class. -/
def optionsClassAttrNames : List String :=
  ["select", "ignore", "warn", "exclude", "paths", "color",
   "show_ignored", "show_error_keys"]

/-- Handling of one configuration section by
`ConfigFileOptionsParser.extract_updates` (lines 487-499) for a section
named `name` whose parsed field patch is `updates`: sections whose name
starts with `mypyrun-` are per-target overrides; if the patch sets any
global-only field the source reports it and then evaluates
`{k: v for k, v in updates.items() if k in Options.PER_MODULE_OPTIONS}`.
The `Options` class defines no `PER_MODULE_OPTIONS` attribute, so that
lookup raises `AttributeError`, modelled as `Except.error`; otherwise the
glob list `name[5:]` is split on commas and one rule per glob is yielded. -/
def processOverrideSection (name : String) (updates : List (String × String)) :
    Except String (List (List (String × String) × String)) :=
  if charsLead "mypyrun-".toList name.toList then
    if ((updates.map Prod.fst).filter fun k => k ∈ GLOBAL_ONLY_OPTIONS) ≠ [] then
      if "PER_MODULE_OPTIONS" ∈ optionsClassAttrNames then
        Except.ok ((splitOnChar ',' (name.toList.drop 5)).map fun g =>
          (updates, String.mk g))
      else
        Except.error
          "AttributeError: type object Options has no attribute PER_MODULE_OPTIONS"
    else
      Except.ok ((splitOnChar ',' (name.toList.drop 5)).map fun g =>
        (updates, String.mk g))
  else
    Except.ok []

/-- C4: an override section that sets a global-only field.  The claim (and
the spec) say the offending fields are stripped and processing continues;
the code instead evaluates the missing class attribute
`Options.PER_MODULE_OPTIONS` and raises `AttributeError`, aborting
`extract_updates`. -/
theorem override_global_only_raises :
    processOverrideSection "mypyrun-foo*" [("color", "True")] =
      Except.error
        "AttributeError: type object Options has no attribute PER_MODULE_OPTIONS" := by
  rfl

end MypyRun
